import Mathlib

/-!
Verification development for a tutorial repository whose single source file is
a notebook of numpy demonstrations (`03_IntroductionToNumpy`).

The embedding models a numpy array as a shape (list of dimension lengths)
together with its row-major (C-order) element buffer, which is exactly the
layout numpy uses for the arrays the notebook builds.  Element dtypes are
modelled by the Lean element type: `Int` for the default int64 arrays,
`Bool` for boolean masks, and `FVal` (an exact rational extended with the
IEEE special values `inf`, `-inf`, `nan`) for float64 arrays.  Finite float
values are idealised as exact rationals; the notebook only narrates
promotion and non-truncation, never rounding behaviour.

Structural claims about the notebook itself (which cells read which
variables, which cells contain an authored loop) are settled against a
statement-level transcription of every code cell of the notebook into a
small Python statement syntax, given further below.
-/

/-- NDArray models a numpy ndarray: a shape and the row-major element buffer. -/
structure NDArray (α : Type) where
  shape : List Nat
  data : List α
deriving Repr, DecidableEq

namespace NDArray

variable {α β : Type}

/-- Total number of elements (`a.size` in numpy). -/
def size (a : NDArray α) : Nat := a.data.length

/-- Shape consistency invariant maintained by every numpy constructor. -/
def wellFormed (a : NDArray α) : Prop := a.data.length = a.shape.prod

/-- Models `np.arange(n)`: the 1-D int64 array 0, 1, ..., n-1. -/
def arange (n : Nat) : NDArray Int :=
  ⟨[n], (List.range n).map Int.ofNat⟩

/-- Models `np.arange(m, n)`: the 1-D int64 array m, m+1, ..., n-1. -/
def arangeFrom (m n : Nat) : NDArray Int :=
  ⟨[n - m], (List.range (n - m)).map (fun i => Int.ofNat (m + i))⟩

/-- Models `a.reshape(s)`: reinterpret the same row-major buffer under a new
shape; numpy raises when the element counts disagree, modelled by `none`. -/
def reshape (a : NDArray α) (s : List Nat) : Option (NDArray α) :=
  if s.prod = a.data.length then some ⟨s, a.data⟩ else none

/-- Models row-major flattening (`a.ravel()` / reading out `a` in C order). -/
def flatten (a : NDArray α) : NDArray α :=
  ⟨[a.data.length], a.data⟩

/-- Models an elementwise scalar comparison such as `b == 0`, `b > 25`,
`b <= 75`: the predicate is applied at every position, giving a boolean
array of the same shape. -/
def cmpScalar (p : α → Bool) (a : NDArray α) : NDArray Bool :=
  ⟨a.shape, a.data.map p⟩

/-- Models `m1 & m2` on boolean masks (elementwise conjunction). -/
def maskAnd (m1 m2 : NDArray Bool) : NDArray Bool :=
  ⟨m1.shape, List.zipWith (fun x y => x && y) m1.data m2.data⟩

/-- Models `m1 | m2` on boolean masks (elementwise disjunction). -/
def maskOr (m1 m2 : NDArray Bool) : NDArray Bool :=
  ⟨m1.shape, List.zipWith (fun x y => x || y) m1.data m2.data⟩

/-- Row-major positions at which a boolean buffer holds `true`. -/
def idxTrue : List Bool → List Nat
  | [] => []
  | b :: bs => (if b then [0] else []) ++ (idxTrue bs).map (· + 1)

/-- Models `np.where(mask)`: the row-major flat positions of the `true`
entries.  (For a 2-D array numpy returns the row and column coordinate
vectors; pairing them coordinate-wise enumerates exactly these flat
positions in the same order.) -/
def whereIdx (m : NDArray Bool) : List Nat := idxTrue m.data

/-- Models fancy indexing `a[idx]` with the index list produced by
`np.where`: a 1-D array of the selected elements in index order. -/
def fancyIndex (a : NDArray α) (idx : List Nat) : NDArray α :=
  ⟨[(idx.filterMap (fun i => a.data[i]?)).length],
    idx.filterMap (fun i => a.data[i]?)⟩

/-- Sequentially set each listed position of a buffer to `v`
(out-of-range positions are ignored, as `List.set` ignores them). -/
def setEach (idx : List Nat) (v : α) (l : List α) : List α :=
  match idx with
  | [] => l
  | i :: is => setEach is v (l.set i v)

/-- Models the fancy-index assignment `a[idx] = v`. -/
def assignIdx (a : NDArray α) (idx : List Nat) (v : α) : NDArray α :=
  ⟨a.shape, setEach idx v a.data⟩

/-- Models elementwise `a + b` on two int64 arrays of the same shape. -/
def addArr (a b : NDArray Int) : NDArray Int :=
  ⟨a.shape, List.zipWith (fun x y => x + y) a.data b.data⟩

/-- Models elementwise `a * b` on two int64 arrays of the same shape. -/
def mulArr (a b : NDArray Int) : NDArray Int :=
  ⟨a.shape, List.zipWith (fun x y => x * y) a.data b.data⟩

/-- Models `a.astype(np.uint8)` on an int64 array: each element is reduced
modulo 2^8 (numpy wraps on narrowing integer casts). -/
def astypeU8 (a : NDArray Int) : NDArray Int :=
  ⟨a.shape, a.data.map (fun x => x % 256)⟩

/-- Models the cell that reimplements elementwise addition by hand:
`x = np.zeros(a.shape, dtype = np.uint8)` followed by
`for i in range(n): x[i] = a[i] + b[i]`.  Storing an int64 sum into a
uint8 buffer wraps modulo 2^8. -/
def loopAddU8 (a b : NDArray Int) (n : Nat) : NDArray Int :=
  ⟨[n], (List.range n).foldl
    (fun d i => d.set i ((a.data.getD i 0 + b.data.getD i 0) % 256))
    (List.replicate n 0)⟩

end NDArray

/-- FVal models a float64 value: an exact rational, or one of the IEEE
special values produced by numpy division (`inf`, `-inf`, `nan`). -/
inductive FVal where
  | fin (q : ℚ)
  | inf
  | neginf
  | nan
deriving Repr, DecidableEq

namespace FVal

/-- Models `np.isinf` on one value. -/
def isinf : FVal → Bool
  | .inf => true
  | .neginf => true
  | _ => false

end FVal

/-- Models numpy true division of two int64 scalars: a zero divisor yields
the signed infinity (or `nan` for 0/0) together with a RuntimeWarning, never
an exception; otherwise the exact quotient, promoted to float. -/
def fdiv (x y : Int) : FVal :=
  if y = 0 then
    if x > 0 then .inf else if x < 0 then .neginf else .nan
  else
    .fin ((x : ℚ) / (y : ℚ))

namespace NDArray

/-- Models `a / d` on two int64 arrays of the same shape: elementwise true
division, always producing a float64 array. -/
def trueDivArr (a d : NDArray Int) : NDArray FVal :=
  ⟨a.shape, List.zipWith fdiv a.data d.data⟩

/-- Models `a / c` for an int64 array and an int scalar: the scalar is
broadcast, and the result dtype is float64. -/
def divScalar (a : NDArray Int) (c : Int) : NDArray FVal :=
  ⟨a.shape, a.data.map (fun x => fdiv x c)⟩

/-- Models `np.isinf(z)` on a float64 array: a boolean mask of the same
shape marking the infinite entries. -/
def isinfMask (a : NDArray FVal) : NDArray Bool :=
  ⟨a.shape, a.data.map FVal.isinf⟩

end NDArray

open NDArray

/-! Concrete values built by the notebook cells the claims cite.  The name
suffix is the notebook cell number of the assignment. -/

/-- Cell 76: `a = np.arange(9)`. -/
def a76 : NDArray Int := arange 9

/-- Cell 76: `b = np.arange(10,19)`. -/
def b76 : NDArray Int := arangeFrom 10 19

/-- Cell 77: `x = a + b` (vectorized addition). -/
def x77 : NDArray Int := addArr a76 b76

/-- Cell 79: the hand-written loop version of the addition, into a uint8
array of zeros. -/
def x79 : NDArray Int := loopAddU8 a76 b76 9

/-- Cell 82: `z = b / a` (true division; `a[0] = 0`). -/
def z82 : NDArray FVal := trueDivArr b76 a76

/-- Cell 87: `idx = np.where(np.isinf(z))`. -/
def idx87 : List Nat := whereIdx (isinfMask z82)

/-- Cell 90: `z[idx] = 0`. -/
def z90 : NDArray FVal := assignIdx z82 idx87 (.fin 0)

/-- Cell 50: `b = a.reshape((10,10))` with `a = np.arange(100)` from cell 43. -/
def b50 : Option (NDArray Int) := reshape (arange 100) [10, 10]

/-- Cell 126: `a = np.arange(9)` recast by `a = a.astype(np.uint8)`. -/
def a126 : NDArray Int := astypeU8 (arange 9)

/-- Cell 127: `b = a / 2` on the uint8 array of cell 126. -/
def b127 : NDArray FVal := divScalar a126 2

/-!
Statement-level transcription of the notebook.

To settle the structural claims (which cells read variables assigned by
earlier cells, which cells contain an authored loop) the code cells of the
notebook are transcribed one-to-one into a small Python statement syntax.
Expressions record the variables they read, the library entry points they
call (module-qualified names such as `np.arange` are treated as library
builtins, not as variables), and their operator structure; keyword
arguments are folded into the positional argument list.
-/

/-- PyExpr is the expression syntax of the notebook's code cells. -/
inductive PyExpr where
  | intConst (n : Int)
  | imagConst (n : Int)
  | strConst (s : String)
  | var (x : String)
  | libConst (s : String)
  | call (fn : String) (args : List PyExpr)
  | methodCall (obj : PyExpr) (m : String) (args : List PyExpr)
  | attr (obj : PyExpr) (f : String)
  | binop (op : String) (l r : PyExpr)
  | subscript (obj : PyExpr) (ix : List PyExpr)
  | sliceExpr (descr : String)
deriving Repr

/-- PyStmt is the statement syntax of the notebook's code cells. -/
inductive PyStmt where
  | assign (lhs : String) (rhs : PyExpr)
  | setItem (obj : String) (ix : List PyExpr) (rhs : PyExpr)
  | exprStmt (e : PyExpr)
  | forRange (v : String) (n : Nat) (body : List PyStmt)
  | importStmt (m : String)
  | magic (s : String)
deriving Repr

/-- Variables read by an expression, computed with a structural fuel bound
(module-qualified library names are builtins, not variable reads).  Every
expression of the notebook has nesting depth far below the bound used in
`PyExpr.reads`, so the bound is never hit. -/
def readsF : Nat → PyExpr → List String
  | 0, _ => []
  | fuel + 1, e =>
    match e with
    | .intConst _ => []
    | .imagConst _ => []
    | .strConst _ => []
    | .var x => [x]
    | .libConst _ => []
    | .call _ args => (args.map (readsF fuel)).foldr (fun l acc => l ++ acc) []
    | .methodCall obj _ args =>
        readsF fuel obj ++ (args.map (readsF fuel)).foldr (fun l acc => l ++ acc) []
    | .attr obj _ => readsF fuel obj
    | .binop _ l r => readsF fuel l ++ readsF fuel r
    | .subscript obj ix =>
        readsF fuel obj ++ (ix.map (readsF fuel)).foldr (fun l acc => l ++ acc) []
    | .sliceExpr _ => []

/-- Variables read by an expression. -/
def PyExpr.reads (e : PyExpr) : List String := readsF 64 e

/-- Variables a statement list binds (a `for` loop binds whatever its body
assigns; an item assignment mutates an existing variable, binding nothing),
with a structural fuel bound never hit on the notebook's cells. -/
def writesF : Nat → List PyStmt → List String
  | 0, _ => []
  | _ + 1, [] => []
  | fuel + 1, .assign lhs _ :: rest => lhs :: writesF fuel rest
  | fuel + 1, .forRange _ _ body :: rest => writesF fuel body ++ writesF fuel rest
  | fuel + 1, _ :: rest => writesF fuel rest

/-- Variables bound by a list of statements. -/
def writesList (l : List PyStmt) : List String := writesF 64 l

/-- Reads of one expression not covered by the already-bound variables. -/
def exprFree (e : PyExpr) (defined : List String) : List String :=
  e.reads.filter (fun x => !defined.contains x)

/-- Reads of a list of expressions not covered by the bound variables. -/
def exprListFree (es : List PyExpr) (defined : List String) : List String :=
  match es with
  | [] => []
  | e :: rest => exprFree e defined ++ exprListFree rest defined

/-- Free reads of a statement list: variables read at some point before any
statement of the list has bound them.  The target of an item assignment
counts as a read, since the object must already exist to be mutated.  The
structural fuel bound is never hit on the notebook's cells. -/
def stmtsFreeF : Nat → List PyStmt → List String → List String
  | 0, _, _ => []
  | _ + 1, [], _ => []
  | fuel + 1, .assign lhs rhs :: rest, defined =>
      exprFree rhs defined ++ stmtsFreeF fuel rest (lhs :: defined)
  | fuel + 1, .setItem obj ix rhs :: rest, defined =>
      (if defined.contains obj then [] else [obj]) ++ exprListFree ix defined ++
        exprFree rhs defined ++ stmtsFreeF fuel rest defined
  | fuel + 1, .exprStmt e :: rest, defined =>
      exprFree e defined ++ stmtsFreeF fuel rest defined
  | fuel + 1, .forRange v _ body :: rest, defined =>
      stmtsFreeF fuel body (v :: defined) ++
        stmtsFreeF fuel rest (writesList body ++ defined)
  | fuel + 1, .importStmt _ :: rest, defined => stmtsFreeF fuel rest defined
  | fuel + 1, .magic _ :: rest, defined => stmtsFreeF fuel rest defined

/-- Free reads of one notebook cell, run in isolation: the variables whose
values the cell takes from outside itself. -/
def cellFreeReads (c : List PyStmt) : List String := stmtsFreeF 64 c []

/-- Whether a cell contains an authored `for` loop. -/
def cellHasLoop (c : List PyStmt) : Bool :=
  c.any fun s =>
    match s with
    | .forRange _ _ _ => true
    | _ => false

/-- Sequential closure: walking the cells in order, every free read of each
cell was bound by some earlier cell. -/
def seqClosedAux : List (List PyStmt) → List String → Bool
  | [], _ => true
  | c :: rest, defined =>
      (cellFreeReads c).all (fun x => defined.contains x) &&
        seqClosedAux rest (writesList c ++ defined)

/-- Whether a whole cell list is sequentially closed starting from nothing. -/
def seqClosed (cs : List (List PyStmt)) : Bool := seqClosedAux cs []

/-- Whether an expression contains a call to the library entry point `fn`,
with a structural fuel bound never hit on the notebook's expressions. -/
def exprCallsF : Nat → String → PyExpr → Bool
  | 0, _, _ => false
  | fuel + 1, fn, e =>
    match e with
    | .call g args => g == fn || args.any (exprCallsF fuel fn)
    | .methodCall obj _ args => exprCallsF fuel fn obj || args.any (exprCallsF fuel fn)
    | .attr obj _ => exprCallsF fuel fn obj
    | .binop _ l r => exprCallsF fuel fn l || exprCallsF fuel fn r
    | .subscript obj ix => exprCallsF fuel fn obj || ix.any (exprCallsF fuel fn)
    | _ => false

/-- Whether a statement contains a call to the library entry point `fn`. -/
def stmtCallsF : Nat → String → PyStmt → Bool
  | 0, _, _ => false
  | _ + 1, fn, .assign _ rhs => exprCallsF 64 fn rhs
  | _ + 1, fn, .setItem _ ix rhs => ix.any (exprCallsF 64 fn) || exprCallsF 64 fn rhs
  | _ + 1, fn, .exprStmt e => exprCallsF 64 fn e
  | fuel + 1, fn, .forRange _ _ body => body.any (stmtCallsF fuel fn)
  | _ + 1, _, .importStmt _ => false
  | _ + 1, _, .magic _ => false

/-- Whether a cell contains a call to the library entry point `fn`. -/
def cellCalls (fn : String) (c : List PyStmt) : Bool := c.any (stmtCallsF 64 fn)

/-- Whether a statement is an item assignment `obj[...] = ...` into the
named variable. -/
def stmtIsSetItem (obj : String) : PyStmt → Bool
  | .setItem o _ _ => o == obj
  | _ => false

/-- Shorthand for the ubiquitous `print(e)` statement. -/
def pr (e : PyExpr) : PyStmt := .exprStmt (.call ("print") [e])

/-- Transcription of every code cell of the notebook, in order.  Entry `k`
is the `k`-th code cell (0-based); the markdown cells carry no code and are
omitted.  Cell 44 is the hand-written addition loop; cells 46-50 are the
division / infinity sequence. -/
def nbCells : List (List PyStmt) := [
  [.magic ("matplotlib inline"), .importStmt ("numpy"), .importStmt ("matplotlib.pyplot")],
  [.assign ("a") (.call ("np.array") [.intConst 0, .intConst 1, .intConst 2, .intConst 3,
    .intConst 4, .intConst 5, .intConst 6, .intConst 7, .intConst 8]), pr (.var ("a"))],
  [.assign ("a") (.call ("np.arange") [.intConst 9]), pr (.var ("a"))],
  [pr (.attr (.var ("a")) ("shape"))],
  [pr (.subscript (.var ("a")) [.intConst 0])],
  [pr (.subscript (.var ("a")) [.intConst 1])],
  [pr (.subscript (.var ("a")) [.intConst (-1)])],
  [pr (.subscript (.var ("a")) [.intConst (-2)])],
  [.setItem ("a") [.intConst 5] (.intConst 1000), pr (.var ("a"))],
  [.assign ("b") (.methodCall (.call ("np.arange") [.intConst 9]) ("reshape")
    [.intConst 3, .intConst 3]), pr (.var ("b"))],
  [pr (.attr (.var ("b")) ("shape"))],
  [.exprStmt (.call ("plt.imshow") [.var ("b")]), .exprStmt (.call ("plt.colorbar") [])],
  [pr (.attr (.var ("b")) ("T"))],
  [.assign ("a") (.methodCall (.call ("np.arange") [.intConst 27]) ("reshape")
    [.intConst 3, .intConst 3, .intConst 3]), pr (.var ("a"))],
  [pr (.attr (.var ("a")) ("shape"))],
  [pr (.subscript (.var ("a")) [.intConst 0, .intConst 0, .intConst 0])],
  [pr (.subscript (.var ("a")) [.intConst 1, .intConst 2, .intConst 2])],
  [pr (.subscript (.var ("a")) [.intConst (-1), .intConst (-1), .intConst (-1)])],
  [pr (.subscript (.var ("a")) [.intConst 0, .sliceExpr (":"), .sliceExpr (":")])],
  [pr (.subscript (.var ("a")) [.intConst 0])],
  [pr (.subscript (.var ("a")) [.intConst 1])],
  [pr (.subscript (.var ("a")) [.intConst (-1)])],
  [pr (.subscript (.var ("a")) [.sliceExpr (":"), .intConst 0, .sliceExpr (":")])],
  [pr (.subscript (.var ("a")) [.sliceExpr (":"), .sliceExpr (":"), .intConst 0])],
  [.assign ("a") (.call ("np.arange") [.intConst 100]), pr (.var ("a"))],
  [pr (.attr (.var ("a")) ("shape"))],
  [pr (.subscript (.var ("a")) [.intConst 0, .intConst 10, .intConst 20, .intConst 55])],
  [pr (.subscript (.var ("a")) [.sliceExpr ("::5")])],
  [.assign ("b") (.methodCall (.var ("a")) ("reshape") [.intConst 10, .intConst 10]),
    pr (.var ("b"))],
  [pr (.subscript (.var ("b")) [.sliceExpr ("::2"), .sliceExpr (":")])],
  [pr (.subscript (.var ("b")) [.sliceExpr ("::2")])],
  [pr (.subscript (.var ("b")) [.sliceExpr (":"), .sliceExpr ("::2")])],
  [pr (.subscript (.var ("b")) [.sliceExpr ("::-2")])],
  [pr (.binop ("==") (.var ("b")) (.intConst 0))],
  [pr (.binop (">") (.var ("b")) (.intConst 25))],
  [pr (.binop ("&") (.binop (">") (.var ("b")) (.intConst 10))
    (.binop ("<=") (.var ("b")) (.intConst 75)))],
  [pr (.binop ("|") (.binop ("&") (.binop (">") (.var ("b")) (.intConst 10))
    (.binop ("<") (.var ("b")) (.intConst 75))) (.binop ("==") (.var ("b")) (.intConst 99)))],
  [.assign ("mask") (.binop (">") (.var ("b")) (.intConst 50)),
    .exprStmt (.call ("plt.imshow") [.var ("mask")]), .exprStmt (.call ("plt.colorbar") [])],
  [.assign ("idx") (.call ("np.where") [.binop ("==") (.var ("b")) (.intConst 5)]),
    pr (.var ("idx"))],
  [.assign ("idx") (.call ("np.where") [.binop (">") (.var ("b")) (.intConst 10)]),
    pr (.var ("idx"))],
  [pr (.subscript (.var ("b")) [.var ("idx")])],
  [.assign ("idx") (.call ("np.where") [.binop ("&") (.binop (">") (.var ("b")) (.intConst 10))
    (.binop ("<=") (.var ("b")) (.intConst 60))]), pr (.subscript (.var ("b")) [.var ("idx")])],
  [.assign ("a") (.call ("np.arange") [.intConst 9]),
    .assign ("b") (.call ("np.arange") [.intConst 10, .intConst 19]),
    .exprStmt (.call ("print") [.var ("a"), .var ("b"), .strConst ("\n\n")])],
  [.assign ("x") (.binop ("+") (.var ("a")) (.var ("b"))), pr (.var ("x"))],
  [.assign ("x") (.call ("np.zeros") [.attr (.var ("a")) ("shape"), .libConst ("np.uint8")]),
    .forRange ("i") 9 [.setItem ("x") [.var ("i")] (.binop ("+")
      (.subscript (.var ("a")) [.var ("i")]) (.subscript (.var ("b")) [.var ("i")]))],
    pr (.var ("x"))],
  [.assign ("y") (.binop ("*") (.var ("a")) (.var ("b"))), pr (.var ("y"))],
  [.assign ("z") (.binop ("/") (.var ("b")) (.var ("a"))), pr (.var ("z"))],
  [pr (.call ("np.isinf") [.var ("z")])],
  [.assign ("idx") (.call ("np.where") [.call ("np.isinf") [.var ("z")]]), pr (.var ("idx"))],
  [pr (.subscript (.var ("z")) [.var ("idx")])],
  [.setItem ("z") [.var ("idx")] (.intConst 0), pr (.var ("z"))],
  [.assign ("a") (.methodCall (.call ("np.arange") [.intConst 9]) ("reshape")
    [.intConst 3, .intConst 3]), .assign ("b") (.binop ("**") (.var ("a")) (.intConst 2)),
    pr (.var ("b"))],
  [pr (.call ("np.sqrt") [.var ("b")])],
  [.assign ("a") (.methodCall (.call ("np.arange") [.intConst 9]) ("reshape")
    [.intConst 3, .intConst 3]),
    .assign ("b") (.methodCall (.call ("np.arange") [.intConst 9]) ("reshape")
    [.intConst 3, .intConst 3]),
    .assign ("x") (.binop ("**") (.var ("a")) (.var ("b"))), pr (.var ("x"))],
  [.assign ("y") (.call ("np.log") [.var ("x")]), pr (.var ("y"))],
  [.assign ("z") (.call ("np.log10") [.var ("x")]), pr (.var ("z"))],
  [.assign ("a") (.call ("np.arange") [.intConst 360]), pr (.var ("a"))],
  [pr (.libConst ("np.pi"))],
  [.assign ("theta") (.binop ("/") (.binop ("*") (.binop ("*") (.var ("a")) (.intConst 2))
    (.libConst ("np.pi"))) (.intConst 360)),
    .assign ("sintheta") (.call ("np.sin") [.var ("theta")]),
    .exprStmt (.call ("plt.plot") [.var ("theta"), .var ("sintheta")]),
    .exprStmt (.call ("plt.xlabel") [.strConst ("$\\theta$"), .intConst 16]),
    .exprStmt (.call ("plt.ylabel") [.strConst ("$sin(\\theta)$"), .intConst 16])],
  [.assign ("a") (.methodCall (.call ("np.arange") [.intConst 1000]) ("reshape")
    [.intConst 10, .intConst 10, .intConst 10]), pr (.var ("a"))],
  [pr (.methodCall (.var ("a")) ("sum") [])],
  [pr (.methodCall (.var ("a")) ("max") [])],
  [pr (.methodCall (.var ("a")) ("mean") [])],
  [pr (.methodCall (.var ("a")) ("mean") [.intConst 0])],
  [.exprStmt (.call ("plt.imshow") [.methodCall (.var ("a")) ("mean") [.intConst 0]]),
    .exprStmt (.call ("plt.colorbar") [])],
  [.assign ("a") (.call ("np.zeros") [.intConst 100, .intConst 100, .libConst ("np.uint8")]),
    pr (.attr (.var ("a")) ("dtype"))],
  [.assign ("b") (.call ("np.zeros") [.intConst 100, .intConst 100, .libConst ("np.float64")]),
    pr (.attr (.var ("b")) ("dtype"))],
  [pr (.var ("a"))],
  [pr (.var ("b"))],
  [.assign ("b") (.methodCall (.var ("b")) ("astype") [.libConst ("np.uint8")]),
    pr (.attr (.var ("b")) ("dtype"))],
  [.assign ("a") (.call ("np.arange") [.intConst 9]),
    .exprStmt (.call ("print") [.strConst ("Assumed datatype: "), .attr (.var ("a")) ("dtype")]),
    .assign ("a") (.methodCall (.var ("a")) ("astype") [.libConst ("np.uint8")]),
    .exprStmt (.call ("print") [.strConst ("New datatype: "), .attr (.var ("a")) ("dtype")])],
  [.assign ("b") (.binop ("/") (.var ("a")) (.intConst 2)), pr (.var ("b"))],
  [pr (.attr (.var ("b")) ("dtype"))],
  [.assign ("a") (.call ("np.zeros") [.intConst 3, .intConst 3, .libConst ("np.complex64")]),
    pr (.var ("a"))],
  [.setItem ("a") [.intConst 0, .intConst 0] (.binop ("+") (.intConst 5) (.imagConst 2)),
    .setItem ("a") [.intConst 0, .intConst 1] (.binop ("+") (.intConst 2) (.imagConst 3)),
    .setItem ("a") [.intConst (-1), .intConst (-1)] (.binop ("-") (.intConst 1) (.imagConst 1)),
    pr (.var ("a"))],
  [pr (.attr (.var ("a")) ("real"))],
  [pr (.attr (.var ("a")) ("imag"))],
  [.exprStmt (.call ("print") [.strConst ("max = "), .methodCall (.var ("a")) ("max") []]),
    .exprStmt (.call ("print") [.strConst ("min = "), .methodCall (.var ("a")) ("min") []])],
  [pr (.methodCall (.var ("a")) ("sum") [])],
  [pr (.methodCall (.var ("a")) ("sum") [.intConst 0])],
  [pr (.methodCall (.var ("a")) ("sum") [.intConst 1])]]

/-!
Helper lemmas about the buffer-level operations.
-/

namespace NDArray

lemma getElem?_zipWith {α β γ : Type} (f : α → β → γ) (l1 : List α) (l2 : List β) (i : Nat) :
    (List.zipWith f l1 l2)[i]? =
      (l1[i]?).bind fun x => (l2[i]?).map fun y => f x y := by
  induction l1 generalizing l2 i with
  | nil => simp
  | cons x xs ih =>
    cases l2 with
    | nil => simp
    | cons y ys =>
      cases i with
      | zero => simp
      | succ n => simpa using ih ys n

lemma setEach_map_succ {α : Type} (is : List Nat) (v x : α) (xs : List α) :
    setEach (is.map (· + 1)) v (x :: xs) = x :: setEach is v xs := by
  induction is generalizing xs with
  | nil => rfl
  | cons i is ih =>
    simp only [List.map_cons, setEach, List.set_cons_succ]
    exact ih (xs.set i v)

lemma setEach_idxTrue_map {α : Type} (p : α → Bool) (v : α) (l : List α) :
    setEach (idxTrue (l.map p)) v l = l.map (fun x => if p x then v else x) := by
  induction l with
  | nil => rfl
  | cons x xs ih =>
    by_cases h : p x
    · simp only [List.map_cons, idxTrue, if_pos h, List.cons_append, List.nil_append,
        setEach, List.set_cons_zero]
      rw [setEach_map_succ, ih]
    · simp only [List.map_cons, idxTrue, if_neg h, List.nil_append]
      rw [setEach_map_succ, ih]

lemma filterMap_getElem?_map_succ {α : Type} (is : List Nat) (x : α) (xs : List α) :
    (is.map (· + 1)).filterMap (fun i => (x :: xs)[i]?) = is.filterMap (fun i => xs[i]?) := by
  induction is with
  | nil => rfl
  | cons i is ih =>
    cases hx : xs[i]? with
    | none => simp [List.filterMap_cons, hx, ih]
    | some y => simp [List.filterMap_cons, hx, ih]

lemma select_idxTrue_map {α : Type} (p : α → Bool) (l : List α) :
    (idxTrue (l.map p)).filterMap (fun i => l[i]?) = l.filter p := by
  induction l with
  | nil => rfl
  | cons x xs ih =>
    by_cases h : p x
    · simp only [List.map_cons, idxTrue, if_pos h, List.cons_append, List.nil_append,
        List.filterMap_cons, List.getElem?_cons_zero, List.filter_cons_of_pos h]
      rw [filterMap_getElem?_map_succ, ih]
    · simp only [List.map_cons, idxTrue, if_neg h, List.nil_append,
        List.filter_cons_of_neg (by simpa using h)]
      rw [filterMap_getElem?_map_succ, ih]

end NDArray

/-!
Claim theorems.
-/

/-- C1: reshape preserves element count and ordering.  For every array `a`
and target shape whose dimension product equals `a`'s element count,
`a.reshape(shape)` succeeds, has exactly that shape and the same total
number of elements, and flattening the result in row-major order yields
exactly the elements of `a` in their original order. -/
theorem C1_reshape_preserves (α : Type) (a : NDArray α) (s : List Nat)
    (h : s.prod = a.data.length) :
    ∃ r : NDArray α, reshape a s = some r ∧ r.shape = s ∧ r.size = a.size ∧
      (flatten r).data = a.data := by
  refine ⟨⟨s, a.data⟩, ?_, rfl, rfl, rfl⟩
  simp [reshape, h]

/-- Witness for C1 at the notebook's `np.arange(9).reshape((3, 3))`: the
shape-product hypothesis holds and the reshaped array flattens back to
0, 1, ..., 8. -/
theorem C1_reshape_preserves_witness :
    (([3, 3] : List Nat).prod = (arange 9).data.length) ∧
    (∃ r : NDArray Int, reshape (arange 9) [3, 3] = some r ∧ r.shape = [3, 3] ∧
      r.size = (arange 9).size ∧ (flatten r).data = (arange 9).data) :=
  ⟨by decide, C1_reshape_preserves Int (arange 9) [3, 3] (by decide)⟩

/-- C2: a boolean comparison yields a mask of the same shape as its
operand, with each entry true exactly when the element at that position
satisfies the condition; elementwise conjunctions and disjunctions of such
comparisons again have the operand's shape and the pointwise meaning. -/
theorem C2_comparison_mask_shape (α : Type) (a : NDArray α) (p q : α → Bool) :
    (cmpScalar p a).shape = a.shape ∧
    (∀ i : Nat, (cmpScalar p a).data[i]? = (a.data[i]?).map p) ∧
    (maskAnd (cmpScalar p a) (cmpScalar q a)).shape = a.shape ∧
    (∀ i : Nat, (maskAnd (cmpScalar p a) (cmpScalar q a)).data[i]? =
      (a.data[i]?).map (fun x => p x && q x)) ∧
    (maskOr (cmpScalar p a) (cmpScalar q a)).shape = a.shape ∧
    (∀ i : Nat, (maskOr (cmpScalar p a) (cmpScalar q a)).data[i]? =
      (a.data[i]?).map (fun x => p x || q x)) := by
  refine ⟨rfl, ?_, rfl, ?_, rfl, ?_⟩ <;>
    intro i <;>
    simp only [cmpScalar, maskAnd, maskOr, getElem?_zipWith, List.getElem?_map] <;>
    cases a.data[i]? <;> simp

/-- C3: integer division by the true-division operator promotes to floating
point.  The quotient array is float-valued (the codomain of `trueDivArr` and
`divScalar` is the float64 value type `FVal`), keeps the operand's shape,
and wherever the divisor is nonzero it holds the exact, non-truncated
quotient — both for an array divisor and for a broadcast scalar divisor. -/
theorem C3_int_division_promotes (a d : NDArray Int) (c : Int) (i : Nat) (x y : Int)
    (hx : a.data[i]? = some x) (hy : d.data[i]? = some y) (hy0 : y ≠ 0) (hc0 : c ≠ 0) :
    (trueDivArr a d).shape = a.shape ∧
    (trueDivArr a d).data[i]? = some (FVal.fin ((x : ℚ) / (y : ℚ))) ∧
    (divScalar a c).shape = a.shape ∧
    (divScalar a c).data[i]? = some (FVal.fin ((x : ℚ) / (c : ℚ))) := by
  refine ⟨rfl, ?_, rfl, ?_⟩
  · simp [trueDivArr, getElem?_zipWith, hx, hy, fdiv, hy0]
  · simp [divScalar, List.getElem?_map, hx, fdiv, hc0]

/-- Witness for C3 at the notebook's uint8-recast array of cell 126
(`a = np.arange(9).astype(np.uint8)`): at position 1 the element is 1, and
dividing by the array `np.arange(9)` at that position, or by the scalar 2
as in cell 127, yields the exact quotients 1/1 and 1/2 (the latter being
the non-truncated 0.5 the notebook prints). -/
theorem C3_int_division_promotes_witness :
    (a126.data[1]? = some 1 ∧ (arange 9).data[1]? = some 1 ∧
      ((1 : Int) ≠ 0) ∧ ((2 : Int) ≠ 0)) ∧
    ((trueDivArr a126 (arange 9)).shape = a126.shape ∧
      (trueDivArr a126 (arange 9)).data[1]? =
        some (FVal.fin (((1 : Int) : ℚ) / ((1 : Int) : ℚ))) ∧
      (divScalar a126 2).shape = a126.shape ∧
      (divScalar a126 2).data[1]? =
        some (FVal.fin (((1 : Int) : ℚ) / ((2 : Int) : ℚ)))) :=
  ⟨⟨by decide, by decide, by decide, by decide⟩,
    C3_int_division_promotes a126 (arange 9) 2 1 1 1 (by decide) (by decide)
      (by decide) (by decide)⟩

/-- C5: the division `z = b / a` of cells 76 and 82, whose divisor has
`a[0] = 0`, returns normally (`trueDivArr` is a total function, so the
result below is an ordinary array and no exception propagates); `z[0]` is
the infinite value recognised by `np.isinf`, every other entry is the exact
float quotient `b[i] / a[i]`, and `np.isinf(z)` is true exactly at
position 0. -/
theorem C5_division_infinite_value :
    z82.shape = [9] ∧
    z82.data = [FVal.inf, .fin (11 / 1), .fin (12 / 2), .fin (13 / 3), .fin (14 / 4),
      .fin (15 / 5), .fin (16 / 6), .fin (17 / 7), .fin (18 / 8)] ∧
    (isinfMask z82).data =
      [true, false, false, false, false, false, false, false, false] :=
  ⟨rfl, rfl, by decide⟩

/-- C8: the hand-written loop of cell 79 computes the same nine values as
the vectorized sum `a + b` of cell 77, every sum lies in 10..26, and the
shapes agree — so the uint8 result type of the loop version loses
nothing. -/
theorem C8_loop_matches_vectorized :
    x79.data = x77.data ∧ x79.shape = x77.shape ∧
    x77.data.all (fun v => decide (10 ≤ v) && decide (v ≤ 26)) = true :=
  ⟨by decide, by decide, by decide⟩

/-- C9: indexing with the result of `np.where` recovers exactly the
selected elements.  For every array and elementwise condition,
`b[np.where(cond(b))]` is a 1-D array containing exactly the elements
satisfying the condition, in row-major order of their positions; and for
`b = np.arange(100).reshape((10,10))` of cell 50, `b[np.where(b > 10)]` is
the 1-D array 11, 12, ..., 99. -/
theorem C9_where_recovers_selected (α : Type) (b : NDArray α) (p : α → Bool) :
    (fancyIndex b (whereIdx (cmpScalar p b))).data = b.data.filter p ∧
    (fancyIndex b (whereIdx (cmpScalar p b))).shape = [(b.data.filter p).length] ∧
    (reshape (arange 100) [10, 10]).map
        (fun c => (fancyIndex c (whereIdx (cmpScalar (fun x => decide (10 < x)) c))).data) =
      some ((List.range 89).map (fun k => (11 : Int) + k)) := by
  refine ⟨?_, ?_, by decide⟩
  · simpa [fancyIndex, whereIdx, cmpScalar] using select_idxTrue_map p b.data
  · simp [fancyIndex, whereIdx, cmpScalar, select_idxTrue_map]

/-- C10: replacing infinite values touches nothing else.  For every float
array `z`, after `idx = np.where(np.isinf(z))` and `z[idx] = 0`, every
non-infinite position keeps exactly its previous value, every infinite
position now holds 0, no infinite value remains, and the shape is
unchanged (the dtype is unchanged because `assignIdx` returns an array
over the same element type, float64). -/
theorem C10_replace_inf_frame (z : NDArray FVal) :
    (assignIdx z (whereIdx (isinfMask z)) (.fin 0)).shape = z.shape ∧
    (assignIdx z (whereIdx (isinfMask z)) (.fin 0)).data =
      z.data.map (fun v => if v.isinf then FVal.fin 0 else v) ∧
    (isinfMask (assignIdx z (whereIdx (isinfMask z)) (.fin 0))).data.all
      (fun b => b == false) = true := by
  have hdata : (assignIdx z (whereIdx (isinfMask z)) (.fin 0)).data =
      z.data.map (fun v => if v.isinf then FVal.fin 0 else v) := by
    simpa [assignIdx, whereIdx, isinfMask] using
      setEach_idxTrue_map FVal.isinf (FVal.fin 0) z.data
  have h3 : (isinfMask (assignIdx z (whereIdx (isinfMask z)) (.fin 0))).data =
      ((assignIdx z (whereIdx (isinfMask z)) (.fin 0)).data).map FVal.isinf := rfl
  refine ⟨rfl, hdata, ?_⟩
  rw [h3, hdata, List.map_map, List.all_eq_true]
  rintro b hb
  rw [List.mem_map] at hb
  obtain ⟨v, hv, rfl⟩ := hb
  by_cases h : v.isinf
  · simp only [Function.comp_apply, if_pos h]
    rfl
  · simp only [Function.comp_apply, if_neg h]
    rw [Bool.not_eq_true] at h
    simp [h]

/-- C4 counterexample: the claim that no authored statement detects and
recovers from a failure value is false.  The notebook's 48th code cell
(`idx = np.where(np.isinf(z))`) calls `np.isinf`, its 50th code cell
assigns into `z` (`z[idx] = 0`), and on the division result `z82` those
authored statements (modelled by `idx87`/`z90`) detect the infinite value
produced at position 0 by the earlier division and replace it with 0,
leaving an array with no infinite value. -/
theorem C4_counterexample :
    cellCalls ("np.isinf") (nbCells.getD 48 []) = true ∧
    (nbCells.getD 50 []).any (stmtIsSetItem ("z")) = true ∧
    (isinfMask z82).data.any (fun b => b) = true ∧
    z90 ≠ z82 ∧
    z90.data[0]? = some (FVal.fin 0) ∧
    (isinfMask z90).data.all (fun b => b == false) = true :=
  ⟨by decide, by decide, by decide, by decide, by decide, by decide⟩

/-- C4 amended: with the single exception of the infinite-quotient
demonstration — exactly two code cells apply the failure predicate
`np.isinf`, and exactly one cell assigns into `z`, replacing precisely the
infinite entries of the division result with 0 and touching nothing
else — failures observed in the notebook are not handled or recovered by
authored logic. -/
theorem C4_amended_single_recovery :
    z90.data = z82.data.map (fun v => if v.isinf then FVal.fin 0 else v) ∧
    z90.shape = z82.shape ∧
    nbCells.countP (cellCalls ("np.isinf")) = 2 ∧
    nbCells.countP (fun c => c.any (stmtIsSetItem ("z"))) = 1 := by
  refine ⟨?_, rfl, by decide, by decide⟩
  simpa [z90, idx87, assignIdx, whereIdx, isinfMask] using
    setEach_idxTrue_map FVal.isinf (FVal.fin 0) z82.data

/-- C6 counterexample: not every cell is standalone.  The notebook's 3rd
code cell, `print(a.shape)`, reads the variable `a` that it does not
construct — `a` is assigned by the 2nd code cell — so running it in an
empty variable environment cannot produce the result it produces after the
preceding cells. -/
theorem C6_counterexample :
    writesList (nbCells.getD 2 []) = ["a"] ∧
    cellFreeReads (nbCells.getD 3 []) = ["a"] ∧
    (["a"] : List String) ≠ [] :=
  ⟨by decide, by decide, by decide⟩

/-- C6 amended: the cells are a sequential tutorial, not standalone units:
65 of the 81 code cells read at least one variable they do not construct,
and the notebook is sequentially closed — walking the cells in order, every
variable a cell reads was assigned by an earlier cell, so each cell
produces its result when run after its predecessors. -/
theorem C6_amended_sequential_closure :
    seqClosed nbCells = true ∧
    nbCells.countP (fun c => !(cellFreeReads c).isEmpty) = 65 ∧
    nbCells.length = 81 :=
  ⟨by decide, by decide, by decide⟩

/-- C7 counterexample: the claim that no code cell contains an authored
control-flow algorithm is false at the notebook's 44th code cell, which
implements elementwise addition with an explicit element-by-element `for`
loop (`for i in range(9): x[i] = a[i] + b[i]`). -/
theorem C7_counterexample :
    cellHasLoop (nbCells.getD 44 []) = true := by decide

/-- C7 amended: exactly one of the 81 code cells authors a control-flow
loop — the pedagogical element-by-element addition of the 44th code cell,
shown only to be compared against the vectorized `a + b`; every other code
cell performs its computation as direct library invocations with no
authored loop. -/
theorem C7_amended_single_loop :
    nbCells.countP cellHasLoop = 1 ∧
    cellHasLoop (nbCells.getD 44 []) = true ∧
    nbCells.length = 81 :=
  ⟨by decide, by decide, by decide⟩
